import Mathlib

/-!
Verification of the PrestoDeck Spotify app state/reconciliation engine
(`src/applications/spotify/spotify.py`) against its specification.

The Python source is shallowly embedded: the `State` class becomes a Lean
structure, `State.__eq__` becomes the Boolean predicate `stateEq`,
`fetch_state` becomes a pure function over explicit remote-call results,
and the relevant loop bodies (progress estimation, dimmer, fetch
application, touch dispatch) become pure state-transition functions.
Timestamps are modelled as integers (seconds), millisecond quantities as
integers.  A fallible remote call is modelled as
`Except Unit (Option α)`: `.error ()` means the call raised, `.ok none`
means it returned a falsy/absent response, `.ok (some r)` a response.
-/

namespace PrestoDeck

/-- A Spotify track object, reduced to the fields the app reads from it:
`track['id']` (a JSON string or null) and `track.get('duration_ms', 0)`
(an optional integer defaulting to 0). -/
structure Track where
  id : Option String
  duration_ms : Option Int
  deriving DecidableEq, Repr

/-- The `State` class of `spotify.py` (lines 14-33): all mutable fields of
the shared playback/UI state.  Timestamps (`last_activity`, `latest_fetch`)
are integer seconds; `latest_fetch` starts as `None`.  The Python `repeat`
attribute is spelled `repeat'` because `repeat` is reserved in Lean. -/
structure State where
  toggle_leds : Bool
  is_playing : Bool
  repeat' : Bool
  shuffle : Bool
  track : Option Track
  show_controls : Bool
  exit : Bool
  volume : Int
  is_liked : Bool
  progress_ms : Int
  duration_ms : Int
  last_activity : Int
  is_dimmed : Bool
  latest_fetch : Option Int
  deriving DecidableEq, Repr

/-- `State.__init__` (lines 16-33): the initial state, parametrised by the
current wall-clock time `now` (Python's `time.time()`). -/
def State.init (now : Int) : State :=
  { toggle_leds := true
    is_playing := false
    repeat' := false
    shuffle := false
    track := none
    show_controls := false
    exit := false
    volume := 50
    is_liked := false
    progress_ms := 0
    duration_ms := 0
    last_activity := now
    is_dimmed := false
    latest_fetch := none }

/-- `(self.track or {}).get('id')` (line 65): the track id of an optional
track, with an absent track contributing `None`. -/
def trackId : Option Track → Option String
  | none => none
  | some t => t.id

/-- `State.__eq__` (lines 55-70): the rendering-equality predicate gating
redraws.  Compares `toggle_leds`, `is_playing`, `repeat'`, `shuffle`,
`show_controls`, `exit`, the track ids, `volume`, `is_liked`, the progress
within a 5000 ms tolerance, and `is_dimmed`. -/
def stateEq (a b : State) : Bool :=
  a.toggle_leds == b.toggle_leds &&
  a.is_playing == b.is_playing &&
  a.repeat' == b.repeat' &&
  a.shuffle == b.shuffle &&
  a.show_controls == b.show_controls &&
  a.exit == b.exit &&
  trackId a.track == trackId b.track &&
  a.volume == b.volume &&
  a.is_liked == b.is_liked &&
  decide ((a.progress_ms - b.progress_ms).natAbs < 5000) &&
  a.is_dimmed == b.is_dimmed

/-- The rendering-equality predicate exactly as claim C1 words it: only
`showControls`, `isPlaying`, `shuffle`, `repeat`, `exitRequested`,
`isLiked`, `isDimmed`, `volume`, the track ids and the 5000 ms progress
tolerance take part.  (The claim's field list omits `toggle_leds`, which
`State.__eq__` does compare.) -/
def claimedStateEq (a b : State) : Bool :=
  a.show_controls == b.show_controls &&
  a.is_playing == b.is_playing &&
  a.shuffle == b.shuffle &&
  a.repeat' == b.repeat' &&
  a.exit == b.exit &&
  a.is_liked == b.is_liked &&
  a.is_dimmed == b.is_dimmed &&
  a.volume == b.volume &&
  trackId a.track == trackId b.track &&
  decide ((a.progress_ms - b.progress_ms).natAbs < 5000)

/-- The remote commands the play/pause handler can fire. -/
inductive RemoteCmd where
  | play
  | pause
  deriving DecidableEq, Repr

/-- The `play_pause` on-press handler (lines 199-205).  It first fires the
remote command (`pause` when playing, else `play`) and only after that
call returns flips `is_playing` and stamps `last_activity := now`.  If the
remote call raises (`remoteFails`), the handler aborts before those
mutations; the `Except.error` payload carries the state as it stands at
the raise point, which is the unmodified input state. -/
def play_pause (st : State) (now : Int) (remoteFails : Bool) :
    RemoteCmd × Except State State :=
  ((if st.is_playing then RemoteCmd.pause else RemoteCmd.play),
   if remoteFails then Except.error st
   else Except.ok { st with is_playing := !st.is_playing, last_activity := now })

/-- Outcome of dispatching one on-press handler from the input loop:
the state after the dispatch and whether a failure was caught and logged. -/
structure DispatchOutcome where
  state : State
  loggedFailure : Bool
  deriving DecidableEq, Repr

/-- The dispatch site in `touch_handler_loop` (lines 294-298):
`try: button.on_press(self) except Exception as e: print(...)`.  The
handler's exception is caught and logged; the dispatcher is total, so the
loop never crashes and proceeds to its next iteration. -/
def dispatchOnPress (r : Except State State) : DispatchOutcome :=
  match r with
  | Except.ok s => ⟨s, false⟩
  | Except.error s => ⟨s, true⟩

/-- The `device` object of a current-playback response: `device['id']`
(string or JSON null) and `device.get('volume_percent', 50)`. -/
structure DeviceJson where
  id : Option String
  volume_percent : Option Int
  deriving DecidableEq, Repr

/-- A current-playback response as `fetch_state` reads it (lines 464-473):
`item`, `is_playing`, `shuffle_state`, `repeat_state` (optional, `.get`
default `"off"`), `device` (absent key makes `resp["device"]` raise), and
`progress_ms` (optional, `.get` default 0). -/
structure CurrentPlayingResp where
  item : Option Track
  is_playing : Bool
  shuffle_state : Bool
  repeat_state : Option String
  device : Option DeviceJson
  progress_ms : Option Int
  deriving DecidableEq, Repr

/-- One entry of a recently-played response: `items[i]["track"]`. -/
structure RecentlyPlayedItem where
  track : Track
  deriving DecidableEq, Repr

/-- A recently-played response: its `items` list. -/
structure RecentlyPlayedResp where
  items : List RecentlyPlayedItem
  deriving DecidableEq, Repr

/-- The local variables of `fetch_state` with their initial values
(lines 454-461). -/
structure FetchAcc where
  current_track : Option Track := none
  is_playing : Bool := false
  shuffle : Bool := false
  repeat' : Bool := false
  device_id : Option String := none
  volume : Int := 50
  progress_ms : Int := 0
  duration_ms : Int := 0
  deriving DecidableEq, Repr

/-- The tuple `fetch_state` returns on success (line 491). -/
structure FetchResult where
  device_id : Option String
  current_track : Track
  is_playing : Bool
  shuffle : Bool
  repeat' : Bool
  volume : Int
  progress_ms : Int
  duration_ms : Int
  deriving DecidableEq, Repr

/-- Step 1 of `fetch_state` (lines 463-476): the `try` block around the
current-playback call.  A raised call or a falsy/item-less response leaves
every local at its default.  When an item is present the assignments run
in source order; if the response has no `device` key, `resp["device"]`
raises *after* `current_track`, `is_playing`, `shuffle` and `repeat` were
already assigned, and the `except` clause catches it there, leaving
`device_id`, `volume`, `progress_ms`, `duration_ms` at their defaults. -/
def fetchStep1 (cp : Except Unit (Option CurrentPlayingResp)) : FetchAcc :=
  match cp with
  | Except.error _ => {}
  | Except.ok none => {}
  | Except.ok (some r) =>
    match r.item with
    | none => {}
    | some t =>
      match r.device with
      | none =>
        { current_track := some t
          is_playing := r.is_playing
          shuffle := r.shuffle_state
          repeat' := (r.repeat_state.getD "off") != "off" }
      | some d =>
        { current_track := some t
          is_playing := r.is_playing
          shuffle := r.shuffle_state
          repeat' := (r.repeat_state.getD "off") != "off"
          device_id := d.id
          volume := d.volume_percent.getD 50
          progress_ms := r.progress_ms.getD 0
          duration_ms := t.duration_ms.getD 0 }

/-- Step 2 of `fetch_state` (lines 478-486): when no track was obtained in
step 1, try the recently-played call; a raised call, falsy response or
empty `items` list changes nothing, otherwise the first entry's track and
its duration are taken. -/
def fetchStep2 (acc : FetchAcc) (rp : Except Unit (Option RecentlyPlayedResp)) :
    FetchAcc :=
  match acc.current_track with
  | some _ => acc
  | none =>
    match rp with
    | Except.error _ => acc
    | Except.ok none => acc
    | Except.ok (some r) =>
      match r.items with
      | [] => acc
      | it :: _ =>
        { acc with
          current_track := some it.track
          duration_ms := it.track.duration_ms.getD 0 }

/-- `fetch_state` (lines 451-491): run both steps, then return `None` if
neither call yielded a track, otherwise the result tuple. -/
def fetch_state (cp : Except Unit (Option CurrentPlayingResp))
    (rp : Except Unit (Option RecentlyPlayedResp)) : Option FetchResult :=
  let acc := fetchStep2 (fetchStep1 cp) rp
  match acc.current_track with
  | none => none
  | some t =>
    some ⟨acc.device_id, t, acc.is_playing, acc.shuffle, acc.repeat',
      acc.volume, acc.progress_ms, acc.duration_ms⟩

/-- The fetch-application step of `display_loop` (lines 394-398): a `None`
result changes nothing; a result tuple is unpacked into the state fields,
and the session's device id is overwritten only when the reported
`device_id` is truthy (a non-`None`, non-empty string — Python
`if device_id:`). -/
def applyFetchToState (st : State) (session_device_id : Option String)
    (r : Option FetchResult) : State × Option String :=
  match r with
  | none => (st, session_device_id)
  | some res =>
    ({ st with
        track := some res.current_track
        is_playing := res.is_playing
        shuffle := res.shuffle
        repeat' := res.repeat'
        volume := res.volume
        progress_ms := res.progress_ms
        duration_ms := res.duration_ms },
     match res.device_id with
     | none => session_device_id
     | some id => if id = "" then session_device_id else some id)

/-- The progress-estimation step of `display_loop` (lines 410-414): while
playing and `duration_ms > 0`, add the wall-clock milliseconds elapsed
since `latest_fetch` to `progress_ms`, clamped at `duration_ms`; otherwise
leave `progress_ms` alone. -/
def progress_tick (is_playing : Bool) (progress_ms duration_ms elapsed_ms : Int) :
    Int :=
  if is_playing && decide (0 < duration_ms) then
    min (progress_ms + elapsed_ms) duration_ms
  else progress_ms

/-- The dimmer step of `display_loop` (lines 416-424): given the current
time, `last_activity` and the `is_dimmed` flag, return the new flag and
the backlight command issued this tick (`none` when the setter is not
invoked).  Inactivity means `now - last_activity > 30`. -/
def dimmerTick (now last_activity : Int) (is_dimmed : Bool) :
    Bool × Option ℚ :=
  if 30 < now - last_activity then
    if is_dimmed then (true, none) else (true, some ((3 : ℚ)/10))
  else
    if is_dimmed then (false, some 1) else (false, none)

/-- A touch-button rectangle `(x, y, w, h)` (the `bounds` argument of
`ControlButton`). -/
structure Bounds where
  x : Int
  y : Int
  w : Int
  h : Int
  deriving DecidableEq, Repr

/-- A touch point on the screen. -/
structure TouchPoint where
  x : Int
  y : Int
  deriving DecidableEq, Repr

/-- Modelled from the spec: `Button.is_pressed` of the touch driver
(module `touch`, part of this repository but not under `src/`) — per the
spec a control is hit when its rectangular bounds contain the touch
point. -/
def boundsContain (b : Bounds) (p : TouchPoint) : Bool :=
  decide (b.x ≤ p.x) && decide (p.x < b.x + b.w) &&
  decide (b.y ≤ p.y) && decide (p.y < b.y + b.h)

/-- A `ControlButton` as the dispatch loop sees it: its name, its bounds
and its visibility rule (the `update` functions of lines 165-189, which
recompute `enabled` from the state each tick before hit-testing). -/
structure ControlButton where
  name : String
  update : State → Bool
  bounds : Bounds

/-- The scan of `touch_handler_loop` (lines 290-298): walk the button list
in declaration order, recompute each button's enablement from the state,
and fire (return) the first button that is enabled and whose bounds
contain the touch point; `break` stops the scan there, so at most one
button fires per tick and later buttons are not examined. -/
def touch_handler_scan (st : State) (p : TouchPoint) :
    List ControlButton → Option String
  | [] => none
  | b :: rest =>
    if b.update st && boundsContain b.bounds p then some b.name
    else touch_handler_scan st p rest

/-- A sample track used for concrete instantiations. -/
def sampleTrack : Track := ⟨some "track1", some 180000⟩

/-- A current-playback response whose device id is the empty string —
non-null, but falsy in Python. -/
def c3resp : CurrentPlayingResp :=
  { item := some sampleTrack
    is_playing := true
    shuffle_state := false
    repeat_state := some "off"
    device := some ⟨some "", some 40⟩
    progress_ms := some 1000 }

/-- A fully-populated device for the success-path instantiation. -/
def c3wdev : DeviceJson := ⟨some "dev42", some 70⟩

/-- A fully-populated current-playback response for the success path. -/
def c3wresp : CurrentPlayingResp :=
  { item := some sampleTrack
    is_playing := true
    shuffle_state := true
    repeat_state := some "context"
    device := some c3wdev
    progress_ms := some 12345 }

/-- Overlapping bounds shared by the two sample buttons. -/
def overlapBounds : Bounds := ⟨0, 0, 100, 100⟩

/-- An always-enabled button named "A" at `overlapBounds`. -/
def btnA : ControlButton := ⟨"A", fun _ => true, overlapBounds⟩

/-- An always-enabled button named "B" at the same bounds as `btnA`. -/
def btnB : ControlButton := ⟨"B", fun _ => true, overlapBounds⟩

/-- A touch point inside `overlapBounds`. -/
def touchP : TouchPoint := ⟨10, 10⟩

/-- Characterisation of `stateEq` as a conjunction of propositions: the
eleven comparisons of `State.__eq__`, and nothing else. -/
lemma stateEq_eq_true_iff (a b : State) :
    stateEq a b = true ↔
      (a.toggle_leds = b.toggle_leds ∧ a.is_playing = b.is_playing ∧
       a.repeat' = b.repeat' ∧ a.shuffle = b.shuffle ∧
       a.show_controls = b.show_controls ∧ a.exit = b.exit ∧
       trackId a.track = trackId b.track ∧ a.volume = b.volume ∧
       a.is_liked = b.is_liked ∧
       (a.progress_ms - b.progress_ms).natAbs < 5000 ∧
       a.is_dimmed = b.is_dimmed) := by
  simp [stateEq, Bool.and_eq_true, and_assoc]

/-- `|a - b| = |b - a|` for the progress tolerance. -/
lemma natAbs_sub_comm (a b : Int) : (a - b).natAbs = (b - a).natAbs := by
  rw [← Int.natAbs_neg, neg_sub]

/-- `stateEq` is symmetric, as an iff. -/
lemma stateEq_symm_iff (a b : State) : stateEq a b = true ↔ stateEq b a = true := by
  rw [stateEq_eq_true_iff, stateEq_eq_true_iff,
    natAbs_sub_comm a.progress_ms b.progress_ms]
  tauto

/-- C1 counterexample: two snapshots agreeing on every field the claim
lists (and with progress delta 0) but differing in `toggle_leds` satisfy
the claim's characterisation, yet `State.__eq__` returns `False` — so the
claimed "if and only if" list, and its "no field outside this list affects
the result", are refuted at this concrete input. -/
theorem c1_rendering_equality_counterexample :
    claimedStateEq (State.init 0) { State.init 0 with toggle_leds := false } = true ∧
    stateEq (State.init 0) { State.init 0 with toggle_leds := false } = false := by
  decide

/-- C1 (amended): `State.__eq__` holds iff `showControls`, `isPlaying`,
`shuffle`, `repeat`, `exitRequested` (`exit`), `isLiked`, `isDimmed`,
`volume` *and `toggle_leds`* are pairwise identical, the track ids are
identical (absent track counted as id null), and the progress delta is
under 5000 ms; a delta of exactly 4999 ms yields equal and 5000 ms yields
not equal; no field outside this extended list affects the result. -/
theorem c1_rendering_equality_amended :
    (∀ a b : State, stateEq a b = true ↔
      (a.show_controls = b.show_controls ∧ a.is_playing = b.is_playing ∧
       a.shuffle = b.shuffle ∧ a.repeat' = b.repeat' ∧ a.exit = b.exit ∧
       a.is_liked = b.is_liked ∧ a.is_dimmed = b.is_dimmed ∧
       a.volume = b.volume ∧ a.toggle_leds = b.toggle_leds ∧
       trackId a.track = trackId b.track ∧
       (a.progress_ms - b.progress_ms).natAbs < 5000)) ∧
    stateEq (State.init 0) { State.init 0 with progress_ms := 4999 } = true ∧
    stateEq (State.init 0) { State.init 0 with progress_ms := 5000 } = false := by
  refine ⟨fun a b => ?_, by decide, by decide⟩
  rw [stateEq_eq_true_iff]
  tauto

/-- C2 counterexample: starting from `is_playing = true`, a press whose
remote command raises leaves `is_playing` at `true` after the dispatch —
the flag is *not* flipped (a surviving optimistic flip would have made it
`false`), refuting the claim that the local mutation precedes the remote
command and survives its failure. -/
theorem c2_on_press_counterexample :
    (dispatchOnPress
      (play_pause { State.init 0 with is_playing := true } 7 true).2).state.is_playing
      = true ∧
    (dispatchOnPress
      (play_pause { State.init 0 with is_playing := true } 7 true).2).loggedFailure
      = true := by
  exact ⟨rfl, rfl⟩

/-- C2 (amended): the play/pause handler fires pause when playing, else
play; when the remote command returns, it flips `is_playing` and stamps
`last_activity`; when the remote command raises, the exception is caught
at the dispatch site in the input loop and logged, the loop continues
(the dispatcher returns normally and `exit` is untouched), and the local
state is left entirely unchanged — in particular `is_playing` is not
flipped after a failed press. -/
theorem c2_on_press_failure_amended : ∀ (st : State) (now : Int),
    (play_pause st now false).1 =
      (if st.is_playing then RemoteCmd.pause else RemoteCmd.play) ∧
    (play_pause st now true).1 =
      (if st.is_playing then RemoteCmd.pause else RemoteCmd.play) ∧
    dispatchOnPress (play_pause st now false).2 =
      ⟨{ st with is_playing := !st.is_playing, last_activity := now }, false⟩ ∧
    dispatchOnPress (play_pause st now true).2 = ⟨st, true⟩ ∧
    (dispatchOnPress (play_pause st now true).2).state.exit = st.exit := by
  intro st now
  exact ⟨rfl, rfl, rfl, rfl, rfl⟩

/-- C9: the rendering-equality predicate is reflexive, and it is symmetric
in the iff sense: `P(A,B)` holds exactly when `P(B,A)` holds. -/
theorem c9_state_eq_refl_symm :
    (∀ s : State, stateEq s s = true) ∧
    (∀ a b : State, (stateEq a b = true ↔ stateEq b a = true)) := by
  constructor
  · intro s
    rw [stateEq_eq_true_iff]
    simp
  · exact stateEq_symm_iff

/-- C10: the rendering-equality predicate is not transitive: snapshots
with progress 0, 4000 and 8000 ms (otherwise identical) are pairwise
within tolerance for adjacent pairs but not across, so within-tolerance
drift can chain without being reported against an intermediate
snapshot. -/
theorem c10_state_eq_not_transitive :
    stateEq (State.init 0) { State.init 0 with progress_ms := 4000 } = true ∧
    stateEq { State.init 0 with progress_ms := 4000 }
      { State.init 0 with progress_ms := 8000 } = true ∧
    stateEq (State.init 0) { State.init 0 with progress_ms := 8000 } = false := by
  decide

/-- C3 counterexample: a fully successful current-playback response whose
reported device id is the empty string — a non-null id.  `fetch_state`
succeeds and carries `some ""` as the device id, yet the display loop's
truthiness guard (`if device_id:`) skips the adoption, leaving the session
device id at `none` — refuting the claim that every non-null device id is
stored into the client session. -/
theorem c3_fetch_success_counterexample :
    fetch_state (Except.ok (some c3resp)) (Except.error ()) =
      some ⟨some "", sampleTrack, true, false, false, 40, 1000, 180000⟩ ∧
    (applyFetchToState (State.init 0) none
      (fetch_state (Except.ok (some c3resp)) (Except.error ()))).2 = none := by
  exact ⟨rfl, rfl⟩

/-- C3 (amended): for every current-playback response that succeeds with a
present item and a present device object, `fetch_state` maps the fields
exactly: track = the item, `is_playing` and shuffle from the response,
repeat true iff `repeat_state` is any value other than "off", device id
from `device.id`, volume from `device.volume_percent` defaulting to 50,
progress from `progress_ms` defaulting to 0, duration from the track's
`duration_ms`; and on such a success with a non-null *and non-empty*
device id the display loop stores that id into the client session. -/
theorem c3_fetch_success_mapping_amended :
    ∀ (r : CurrentPlayingResp) (t : Track) (d : DeviceJson)
      (rp : Except Unit (Option RecentlyPlayedResp)),
      r.item = some t → r.device = some d →
      (fetch_state (Except.ok (some r)) rp =
        some ⟨d.id, t, r.is_playing, r.shuffle_state,
          (r.repeat_state.getD "off") != "off",
          d.volume_percent.getD 50, r.progress_ms.getD 0,
          t.duration_ms.getD 0⟩) ∧
      (((r.repeat_state.getD "off") != "off") = true ↔
        r.repeat_state.getD "off" ≠ "off") ∧
      (∀ (st : State) (sess : Option String) (id : String),
        d.id = some id → id ≠ "" →
        (applyFetchToState st sess
          (fetch_state (Except.ok (some r)) rp)).2 = some id) := by
  intro r t d rp hitem hdev
  have h1 : fetch_state (Except.ok (some r)) rp =
      some ⟨d.id, t, r.is_playing, r.shuffle_state,
        (r.repeat_state.getD "off") != "off",
        d.volume_percent.getD 50, r.progress_ms.getD 0,
        t.duration_ms.getD 0⟩ := by
    simp [fetch_state, fetchStep1, fetchStep2, hitem, hdev]
  refine ⟨h1, bne_iff_ne, fun st sess id hid hne => ?_⟩
  rw [h1]
  simp [applyFetchToState, hid, hne]

/-- C3 witness: the amended mapping and session adoption evaluated on a
concrete successful response with device id "dev42". -/
theorem c3_fetch_success_mapping_witness :
    fetch_state (Except.ok (some c3wresp)) (Except.error ()) =
      some ⟨c3wdev.id, sampleTrack, c3wresp.is_playing, c3wresp.shuffle_state,
        (c3wresp.repeat_state.getD "off") != "off",
        c3wdev.volume_percent.getD 50, c3wresp.progress_ms.getD 0,
        sampleTrack.duration_ms.getD 0⟩ ∧
    (applyFetchToState (State.init 0) none
      (fetch_state (Except.ok (some c3wresp)) (Except.error ()))).2 = some "dev42" :=
  ⟨(c3_fetch_success_mapping_amended c3wresp sampleTrack c3wdev
      (Except.error ()) rfl rfl).1,
   (c3_fetch_success_mapping_amended c3wresp sampleTrack c3wdev
      (Except.error ()) rfl rfl).2.2 (State.init 0) none "dev42" rfl (by decide)⟩

/-- C4: whenever the current-playback call raises, returns a falsy
response, or returns a response without an item, `fetch_state` still goes
on to the recently-played call; and when that succeeds with at least one
entry, the result's track is the first entry's track, the duration comes
from that track, and every transport field keeps its default:
`is_playing = false`, shuffle = false, repeat = false, volume = 50,
progress = 0, device id absent. -/
theorem c4_recently_played_fallback :
    ∀ (cp : Except Unit (Option CurrentPlayingResp))
      (rr : RecentlyPlayedResp) (it : RecentlyPlayedItem)
      (rest : List RecentlyPlayedItem),
      (cp = Except.error () ∨ cp = Except.ok none ∨
        (∃ r, cp = Except.ok (some r) ∧ r.item = none)) →
      rr.items = it :: rest →
      fetch_state cp (Except.ok (some rr)) =
        some ⟨none, it.track, false, false, false, 50, 0,
          it.track.duration_ms.getD 0⟩ := by
  intro cp rr it rest hcp hitems
  have hacc : fetchStep1 cp = {} := by
    rcases hcp with h | h | ⟨r, h, hnone⟩
    · subst h; rfl
    · subst h; rfl
    · subst h; simp [fetchStep1, hnone]
  simp [fetch_state, hacc, fetchStep2, hitems]

/-- C4 witness: fallback evaluated with a raising current-playback call
and a one-entry recently-played response. -/
theorem c4_recently_played_fallback_witness :
    fetch_state (Except.error ()) (Except.ok (some ⟨[⟨sampleTrack⟩]⟩)) =
      some ⟨none, sampleTrack, false, false, false, 50, 0,
        sampleTrack.duration_ms.getD 0⟩ :=
  c4_recently_played_fallback (Except.error ()) ⟨[⟨sampleTrack⟩]⟩
    ⟨sampleTrack⟩ [] (Or.inl rfl) rfl

/-- C5: when neither remote call yields a track (each raises, returns a
falsy response, or returns no item/entries), `fetch_state` returns the
distinct "no track" result `none`, and on that result the display loop
leaves the existing playback state — track, `is_playing`, shuffle, repeat,
volume, progress and duration included — and the session device id
untouched. -/
theorem c5_no_track_preserves_state :
    ∀ (cp : Except Unit (Option CurrentPlayingResp))
      (rp : Except Unit (Option RecentlyPlayedResp)),
      (cp = Except.error () ∨ cp = Except.ok none ∨
        (∃ r, cp = Except.ok (some r) ∧ r.item = none)) →
      (rp = Except.error () ∨ rp = Except.ok none ∨
        (∃ rr, rp = Except.ok (some rr) ∧ rr.items = [])) →
      fetch_state cp rp = none ∧
      (∀ (st : State) (sess : Option String),
        applyFetchToState st sess (fetch_state cp rp) = (st, sess)) := by
  intro cp rp hcp hrp
  have hacc : fetchStep1 cp = {} := by
    rcases hcp with h | h | ⟨r, h, hnone⟩
    · subst h; rfl
    · subst h; rfl
    · subst h; simp [fetchStep1, hnone]
  have hfetch : fetch_state cp rp = none := by
    rcases hrp with h | h | ⟨rr, h, hnil⟩
    · subst h; simp [fetch_state, hacc, fetchStep2]
    · subst h; simp [fetch_state, hacc, fetchStep2]
    · subst h; simp [fetch_state, hacc, fetchStep2, hnil]
  exact ⟨hfetch, fun st sess => by rw [hfetch]; rfl⟩

/-- C5 witness: both calls raising — `fetch_state` yields `none` and the
display loop preserves the state and session. -/
theorem c5_no_track_preserves_state_witness :
    fetch_state (Except.error ()) (Except.error ()) = none ∧
    applyFetchToState (State.init 0) (some "olddev")
      (fetch_state (Except.error ()) (Except.error ())) =
      (State.init 0, some "olddev") :=
  ⟨(c5_no_track_preserves_state (Except.error ()) (Except.error ())
      (Or.inl rfl) (Or.inl rfl)).1,
   (c5_no_track_preserves_state (Except.error ()) (Except.error ())
      (Or.inl rfl) (Or.inl rfl)).2 (State.init 0) (some "olddev")⟩

/-- C6: on a display-loop tick with `is_playing = true` and
`duration_ms > 0`, the estimator sets the progress to
`min (progress + elapsed, duration)`; concretely, from progress 0 of a
200000 ms track, 5000 ms elapsed gives 5000 and 250000 ms elapsed clamps
to 200000; and a successful fetch overwrites the progress with the
authoritative remote value. -/
theorem c6_progress_estimator :
    progress_tick true 0 200000 5000 = 5000 ∧
    progress_tick true 0 200000 250000 = 200000 ∧
    (∀ p d e : Int, 0 < d → progress_tick true p d e = min (p + e) d) ∧
    (∀ (st : State) (sess : Option String) (res : FetchResult),
      ((applyFetchToState st sess (some res)).1).progress_ms = res.progress_ms) := by
  refine ⟨by decide, by decide, fun p d e hd => ?_, fun st sess res => rfl⟩
  simp [progress_tick, hd]

/-- C6 witness: the general clamped-addition rule applied at a concrete
positive duration. -/
theorem c6_progress_estimator_witness :
    (0 : Int) < 200000 ∧ progress_tick true 7 200000 4000 = min (7 + 4000) 200000 :=
  ⟨by decide, c6_progress_estimator.2.2.1 7 200000 4000 (by decide)⟩

/-- C7: the dimmer is level-triggered with edge-only side effects.  On a
tick with `now - last_activity > 30` and `is_dimmed = false`, the state
becomes dimmed and the backlight is set to 0.3; on a further inactive tick
the state stays dimmed and the backlight setter is not invoked; the
instant the inactivity condition is false while dimmed, the state becomes
bright and the backlight is set to 1.0 (and a bright state with activity
invokes nothing). -/
theorem c7_dimmer_state_machine :
    ∀ (now last : Int),
      (30 < now - last →
        dimmerTick now last false = (true, some ((3 : ℚ)/10)) ∧
        dimmerTick now last true = (true, none)) ∧
      (¬ 30 < now - last →
        dimmerTick now last true = (false, some 1) ∧
        dimmerTick now last false = (false, none)) := by
  intro now last
  constructor
  · intro h
    constructor <;> simp [dimmerTick, h]
  · intro h
    constructor <;> simp [dimmerTick, h]

/-- C7 witness: with `last_activity = now - 31` the inactivity condition
holds and the bright state transitions to dimmed, backlight 0.3. -/
theorem c7_dimmer_state_machine_witness :
    (30 : Int) < 31 - 0 ∧ dimmerTick 31 0 false = (true, some ((3 : ℚ)/10)) :=
  ⟨by decide, ((c7_dimmer_state_machine 31 0).1 (by decide)).1⟩

/-- C8: the input-loop scan dispatches at most one control per tick
(structurally, it returns at most one name): the first control in
declaration order that is enabled and whose bounds contain the touch
point fires — whatever controls are declared after it, including an
enabled overlapping one, are not checked; and a control that is disabled
or missed passes the scan on unchanged. -/
theorem c8_first_match_dispatch :
    ∀ (st : State) (p : TouchPoint) (b1 b2 : ControlButton)
      (rest rest2 : List ControlButton),
      (b1.update st && boundsContain b1.bounds p) = true →
      (b2.update st && boundsContain b2.bounds p) = true →
      touch_handler_scan st p (b1 :: b2 :: rest) = some b1.name ∧
      touch_handler_scan st p (b1 :: rest2) = some b1.name ∧
      (∀ (b3 : ControlButton) (bs : List ControlButton),
        (b3.update st && boundsContain b3.bounds p) = false →
        touch_handler_scan st p (b3 :: bs) = touch_handler_scan st p bs) := by
  intro st p b1 b2 rest rest2 h1 h2
  refine ⟨?_, ?_, fun b3 bs h3 => ?_⟩
  · simp [touch_handler_scan, h1]
  · simp [touch_handler_scan, h1]
  · simp [touch_handler_scan, h3]

/-- C8 witness: two always-enabled buttons with identical overlapping
bounds, a touch point inside both — the scan fires the earlier-declared
button "A". -/
theorem c8_first_match_dispatch_witness :
    (btnA.update (State.init 0) && boundsContain btnA.bounds touchP) = true ∧
    (btnB.update (State.init 0) && boundsContain btnB.bounds touchP) = true ∧
    touch_handler_scan (State.init 0) touchP [btnA, btnB] = some btnA.name :=
  ⟨rfl, rfl,
   (c8_first_match_dispatch (State.init 0) touchP btnA btnB [] [] rfl rfl).1⟩

end PrestoDeck
